import Mathlib

/-
Verification of the pricing/subscription backend (src/main.py).

The handlers are shallowly embedded as pure Lean functions. The document
store accessor (module `database`) and the hosting HTTP framework are
external collaborators; they are modelled as explicit parameters, and the
calls the handlers make to them are recorded in the handlers' results so
that claims about those calls can be stated.
-/

namespace PricingBackend

/-- Billing interval: the `Literal["month", "year"]` of the `Plan` model. -/
inductive Interval where
  | month
  | year
deriving DecidableEq, Repr

/-- The `Plan` pydantic model of src/main.py. Catalog prices are the integer
literals 9, 29, 79 and are only ever copied, never computed with, so they are
embedded as `Nat`. -/
structure Plan where
  id : String
  name : String
  price : Nat
  interval : Interval
  features : List String
  most_popular : Bool
deriving DecidableEq, Repr

/-- The static catalog `PRICING_PLANS` of src/main.py, in declaration order. -/
def PRICING_PLANS : List Plan := [
  { id := "starter"
    name := "Starter"
    price := 9
    interval := Interval.month
    features := ["Unlimited projects", "Community support", "Basic analytics"]
    most_popular := false },
  { id := "pro"
    name := "Pro"
    price := 29
    interval := Interval.month
    features := ["Everything in Starter", "Advanced analytics", "Priority support",
                 "Team collaboration"]
    most_popular := true },
  { id := "business"
    name := "Business"
    price := 79
    interval := Interval.month
    features := ["Everything in Pro", "SLA & SSO", "Audit logs",
                 "Dedicated success manager"]
    most_popular := false }
]

/-- The `GET /api/plans` handler `list_plans` of src/main.py: returns the
catalog unchanged. -/
def list_plans : List Plan := PRICING_PLANS

/-- Subscription status: the `Literal["pending", "active"]` enumeration. -/
inductive SubStatus where
  | pending
  | active
deriving DecidableEq, Repr

/-- The `CheckoutRequest` pydantic model of src/main.py. -/
structure CheckoutRequest where
  plan_id : String
  email : String
  user_id : Option String
deriving DecidableEq, Repr

/-- The `CheckoutResponse` pydantic model of src/main.py. -/
structure CheckoutResponse where
  subscription_id : String
  status : SubStatus
  message : String
deriving DecidableEq, Repr

/-- Modelled from the spec: the `Subscription` record imported from the
`schemas` module, which is not in the source tree. Spec section 3 gives its
fields: plan_id, plan_name, price, interval, email, optional user_id, and a
status drawn from the pending/active enumeration. -/
structure Subscription where
  plan_id : String
  plan_name : String
  price : Nat
  interval : Interval
  email : String
  user_id : Option String
  status : SubStatus
deriving DecidableEq, Repr

/-- The FastAPI `HTTPException` raised by the checkout handler. -/
structure HTTPException where
  status_code : Nat
  detail : String
deriving DecidableEq, Repr

/-- Result of one run of the checkout handler: either the HTTP response or
the raised exception, together with the list of `create_document` calls made
(collection name and record), in order. -/
structure CheckoutResult where
  result : Except HTTPException CheckoutResponse
  created : List (String × Subscription)
deriving Repr

/-- The catalog lookup of the checkout handler:
`next((p for p in PRICING_PLANS if p.id == req.plan_id), None)`. -/
def findPlan (plan_id : String) : Option Plan :=
  PRICING_PLANS.find? (fun p => p.id == plan_id)

/-- The `POST /api/checkout` handler of src/main.py. The external
`create_document` accessor is modelled by `inserted_id`, the identifier the
store returns for this call's insertion. -/
def checkout (inserted_id : String) (req : CheckoutRequest) : CheckoutResult :=
  match findPlan req.plan_id with
  | none =>
    { result := Except.error { status_code := 404, detail := "Plan not found" }
      created := [] }
  | some plan =>
    let sub : Subscription :=
      { plan_id := plan.id
        plan_name := plan.name
        price := plan.price
        interval := plan.interval
        email := req.email
        user_id := req.user_id
        status := SubStatus.active }
    { result := Except.ok
        { subscription_id := inserted_id
          status := sub.status
          message := "Subscription for " ++ plan.name ++ " activated" }
      created := [("subscription", sub)] }

/-- Claim C3: `list_plans` returns exactly 3 plans, in declaration order, with
id values starter, pro, business (unique across the catalog), and exactly one
plan has `most_popular = true`, namely the one with id "pro". -/
theorem list_plans_catalog :
    list_plans = PRICING_PLANS ∧
    list_plans.length = 3 ∧
    list_plans.map Plan.id = ["starter", "pro", "business"] ∧
    (list_plans.map Plan.id).Nodup ∧
    (list_plans.filter (fun p => p.most_popular)).map Plan.id = ["pro"] := by
  refine ⟨rfl, rfl, rfl, ?_, rfl⟩
  decide

/-- Helper: on a successful catalog lookup, the checkout handler's full
result, by unfolding the source definition. -/
theorem checkout_eq_of_findPlan_some (inserted_id : String) (req : CheckoutRequest)
    (plan : Plan) (h : findPlan req.plan_id = some plan) :
    checkout inserted_id req =
      { result := Except.ok
          { subscription_id := inserted_id
            status := SubStatus.active
            message := "Subscription for " ++ plan.name ++ " activated" }
        created := [("subscription",
          { plan_id := plan.id
            plan_name := plan.name
            price := plan.price
            interval := plan.interval
            email := req.email
            user_id := req.user_id
            status := SubStatus.active })] } := by
  unfold checkout
  rw [h]

/-- Helper: the catalog entry matched by plan id "pro". -/
theorem findPlan_pro :
    findPlan "pro" = some
      { id := "pro"
        name := "Pro"
        price := 29
        interval := Interval.month
        features := ["Everything in Starter", "Advanced analytics",
                     "Priority support", "Team collaboration"]
        most_popular := true } := by
  decide

/-- Claim C1: for every checkout request whose plan_id equals the id of some
catalog plan, checkout returns a response with status "active" and a message
containing that plan's name; in particular for plan_id "pro" the message is
exactly "Subscription for Pro activated". -/
theorem checkout_valid_plan_active (inserted_id : String) (req : CheckoutRequest)
    (plan : Plan) (h : findPlan req.plan_id = some plan) :
    ∃ resp : CheckoutResponse,
      (checkout inserted_id req).result = Except.ok resp ∧
      resp.status = SubStatus.active ∧
      (∃ pre post, resp.message = pre ++ plan.name ++ post) ∧
      (req.plan_id = "pro" → resp.message = "Subscription for Pro activated") := by
  rw [checkout_eq_of_findPlan_some inserted_id req plan h]
  refine ⟨_, rfl, rfl, ⟨"Subscription for ", " activated", rfl⟩, ?_⟩
  intro hpro
  rw [hpro] at h
  have hplan := Option.some.inj (findPlan_pro.symm.trans h)
  rw [← hplan]
  rfl

/-- Witness for C1 at the concrete request of the spec's scenario. -/
theorem checkout_valid_plan_active_witness :
    ∃ resp : CheckoutResponse,
      (checkout "sub_1" { plan_id := "pro", email := "x@y.com", user_id := none }).result
        = Except.ok resp ∧
      resp.status = SubStatus.active ∧
      (∃ pre post, resp.message = pre ++ "Pro" ++ post) ∧
      ("pro" = "pro" → resp.message = "Subscription for Pro activated") :=
  checkout_valid_plan_active "sub_1" { plan_id := "pro", email := "x@y.com", user_id := none }
    { id := "pro"
      name := "Pro"
      price := 29
      interval := Interval.month
      features := ["Everything in Starter", "Advanced analytics",
                   "Priority support", "Team collaboration"]
      most_popular := true }
    (by decide)

/-- Claim C2: for every checkout request whose plan_id matches no catalog
plan, checkout fails with a 404 error whose detail is exactly
"Plan not found", and no create_document call is made. -/
theorem checkout_unknown_plan (inserted_id : String) (req : CheckoutRequest)
    (h : findPlan req.plan_id = none) :
    (checkout inserted_id req).result
      = Except.error { status_code := 404, detail := "Plan not found" } ∧
    (checkout inserted_id req).created = [] := by
  unfold checkout
  rw [h]
  exact ⟨rfl, rfl⟩

/-- Witness for C2 at the concrete request of the spec's scenario. -/
theorem checkout_unknown_plan_witness :
    (checkout "sub_1" { plan_id := "nope", email := "x@y.com", user_id := none }).result
      = Except.error { status_code := 404, detail := "Plan not found" } ∧
    (checkout "sub_1" { plan_id := "nope", email := "x@y.com", user_id := none }).created
      = [] :=
  checkout_unknown_plan "sub_1" { plan_id := "nope", email := "x@y.com", user_id := none }
    (by decide)

/-- Claim C5: assuming create_document returns a unique identifier on each
call (the two calls' identifiers differ), two checkout calls with identical
valid inputs each create one record and return distinct subscription_id
values; no deduplication occurs. -/
theorem checkout_no_dedup (id1 id2 : String) (req : CheckoutRequest) (plan : Plan)
    (h : findPlan req.plan_id = some plan) (hne : id1 ≠ id2) :
    (checkout id1 req).created.length = 1 ∧
    (checkout id2 req).created.length = 1 ∧
    ∃ r1 r2 : CheckoutResponse,
      (checkout id1 req).result = Except.ok r1 ∧
      (checkout id2 req).result = Except.ok r2 ∧
      r1.subscription_id ≠ r2.subscription_id := by
  rw [checkout_eq_of_findPlan_some id1 req plan h,
      checkout_eq_of_findPlan_some id2 req plan h]
  exact ⟨rfl, rfl, _, _, rfl, rfl, hne⟩

/-- Witness for C5: two checkouts of the "pro" plan under distinct generated
identifiers. -/
theorem checkout_no_dedup_witness :
    (checkout "sub_1" { plan_id := "pro", email := "x@y.com", user_id := none }).created.length
      = 1 ∧
    (checkout "sub_2" { plan_id := "pro", email := "x@y.com", user_id := none }).created.length
      = 1 ∧
    ∃ r1 r2 : CheckoutResponse,
      (checkout "sub_1" { plan_id := "pro", email := "x@y.com", user_id := none }).result
        = Except.ok r1 ∧
      (checkout "sub_2" { plan_id := "pro", email := "x@y.com", user_id := none }).result
        = Except.ok r2 ∧
      r1.subscription_id ≠ r2.subscription_id :=
  checkout_no_dedup "sub_1" "sub_2" { plan_id := "pro", email := "x@y.com", user_id := none }
    { id := "pro"
      name := "Pro"
      price := 29
      interval := Interval.month
      features := ["Everything in Starter", "Advanced analytics",
                   "Priority support", "Team collaboration"]
      most_popular := true }
    (by decide) (by decide)

/-- Claim C6: for every checkout with a valid plan_id, the persisted
Subscription has status "active" unconditionally, its plan fields copied from
the matched catalog plan and its email/user_id copied from the request; the
returned subscription_id is the identifier generated by create_document, and
the response status equals the persisted record's status. -/
theorem checkout_persisted_record (inserted_id : String) (req : CheckoutRequest)
    (plan : Plan) (h : findPlan req.plan_id = some plan) :
    ∃ (sub : Subscription) (resp : CheckoutResponse),
      (checkout inserted_id req).created = [("subscription", sub)] ∧
      (checkout inserted_id req).result = Except.ok resp ∧
      sub.status = SubStatus.active ∧
      sub.plan_id = plan.id ∧
      sub.plan_name = plan.name ∧
      sub.price = plan.price ∧
      sub.interval = plan.interval ∧
      sub.email = req.email ∧
      sub.user_id = req.user_id ∧
      resp.subscription_id = inserted_id ∧
      resp.status = sub.status := by
  rw [checkout_eq_of_findPlan_some inserted_id req plan h]
  exact ⟨_, _, rfl, rfl, rfl, rfl, rfl, rfl, rfl, rfl, rfl, rfl, rfl⟩

/-- Witness for C6 at a concrete "business" checkout with a user id. -/
theorem checkout_persisted_record_witness :
    ∃ (sub : Subscription) (resp : CheckoutResponse),
      (checkout "sub_9" { plan_id := "business", email := "a@b.com", user_id := some "u1" }).created
        = [("subscription", sub)] ∧
      (checkout "sub_9" { plan_id := "business", email := "a@b.com", user_id := some "u1" }).result
        = Except.ok resp ∧
      sub.status = SubStatus.active ∧
      sub.plan_id = "business" ∧
      sub.plan_name = "Business" ∧
      sub.price = 79 ∧
      sub.interval = Interval.month ∧
      sub.email = "a@b.com" ∧
      sub.user_id = some "u1" ∧
      resp.subscription_id = "sub_9" ∧
      resp.status = sub.status :=
  checkout_persisted_record "sub_9"
    { plan_id := "business", email := "a@b.com", user_id := some "u1" }
    { id := "business"
      name := "Business"
      price := 79
      interval := Interval.month
      features := ["Everything in Pro", "SLA & SSO", "Audit logs",
                   "Dedicated success manager"]
      most_popular := false }
    (by decide)

/-- A value stored in a document field: either an ordinary JSON string or the
store's opaque ObjectId, carried with its canonical string form. -/
inductive DocValue where
  | str : String → DocValue
  | oid : String → DocValue
deriving DecidableEq, Repr

/-- `str(v)` of Python on a document field value: the string itself, or the
ObjectId's string form. -/
def DocValue.asString : DocValue → String
  | DocValue.str s => s
  | DocValue.oid s => s

/-- A document returned by the store accessor: a dict, embedded as an
association list of field name and value. -/
abbrev Doc := List (String × DocValue)

/-- Python truthiness of an `Optional[str]`: `None` and `""` are falsy. -/
def pyTruthy : Option String → Bool
  | none => false
  | some s => !(s == "")

/-- One call to the store accessor's `get_documents`: collection name, the
equality filter dict (as an association list in insertion order), and the
result cap. -/
structure StoreQuery where
  collection : String
  filter : List (String × String)
  limit : Nat
deriving DecidableEq, Repr

/-- Result of one run of the subscriptions query handler: the `get_documents`
call it made and the response body `{items: ...}`. -/
structure SubscriptionsResponse where
  call : StoreQuery
  items : List Doc
deriving DecidableEq, Repr

/-- The per-document serialization step of the handler:
`if "_id" in d: d["_id"] = str(d["_id"])`. Dict keys are unique, so
rewriting every entry whose key is `"_id"` is the same operation. -/
def stringifyId : Doc → Doc
  | [] => []
  | (k, v) :: tl =>
    (if k == "_id" then (k, DocValue.str v.asString) else (k, v)) :: stringifyId tl

/-- The `GET /api/subscriptions` handler `get_user_subscriptions` of
src/main.py. The external `get_documents` accessor is modelled by `store`;
the filter dict is built by Python-truthiness tests (`if user_id:`,
`if email:`), user_id inserted first. -/
def get_user_subscriptions (store : String → List (String × String) → Nat → List Doc)
    (email user_id : Option String) : SubscriptionsResponse :=
  let filter_dict : List (String × String) :=
    (if pyTruthy user_id then [("user_id", user_id.getD "")] else []) ++
    (if pyTruthy email then [("email", email.getD "")] else [])
  let docs := store "subscription" filter_dict 50
  { call := { collection := "subscription", filter := filter_dict, limit := 50 }
    items := docs.map stringifyId }

/-- Counterexample to claim C4 as stated: with the email parameter supplied
as the empty string (and no user_id), the filter passed to the accessor is
empty rather than the equality filter on the supplied email. -/
theorem get_subscriptions_filter_counterexample :
    (get_user_subscriptions (fun _ _ _ => []) (some "") none).call.filter = [] ∧
    (get_user_subscriptions (fun _ _ _ => []) (some "") none).call.filter
      ≠ [("email", "")] := by
  exact ⟨rfl, by decide⟩

/-- Claim C4 (amended): for every call, the accessor is called on collection
"subscription" with limit 50, and the filter is the equality filter built
from exactly the supplied non-empty parameters among user_id and email (a
supplied empty string is treated as absent), user_id first. -/
theorem get_subscriptions_filter
    (store : String → List (String × String) → Nat → List Doc)
    (email user_id : Option String) :
    (get_user_subscriptions store email user_id).call.collection = "subscription" ∧
    (get_user_subscriptions store email user_id).call.limit = 50 ∧
    (get_user_subscriptions store email user_id).call.filter =
      (match user_id with
       | some u => if u = "" then [] else [("user_id", u)]
       | none => []) ++
      (match email with
       | some e => if e = "" then [] else [("email", e)]
       | none => []) := by
  refine ⟨rfl, rfl, ?_⟩
  cases user_id with
  | none =>
    cases email with
    | none => rfl
    | some e =>
      by_cases he : e = "" <;>
        simp [get_user_subscriptions, pyTruthy, he]
  | some u =>
    cases email with
    | none =>
      by_cases hu : u = "" <;>
        simp [get_user_subscriptions, pyTruthy, hu]
    | some e =>
      by_cases hu : u = "" <;> by_cases he : e = "" <;>
        simp [get_user_subscriptions, pyTruthy, hu, he]

/-- Claim C10: a supplied but empty-string email or user_id is treated as
absent; in particular email = "" and user_id = "" yields the very same
unfiltered query (and response) as supplying neither. -/
theorem get_subscriptions_empty_string_absent
    (store : String → List (String × String) → Nat → List Doc) :
    get_user_subscriptions store (some "") (some "")
      = get_user_subscriptions store none none ∧
    (get_user_subscriptions store (some "") (some "")).call.filter = [] ∧
    (∀ user_id, get_user_subscriptions store (some "") user_id
      = get_user_subscriptions store none user_id) ∧
    (∀ email, get_user_subscriptions store email (some "")
      = get_user_subscriptions store email none) := by
  exact ⟨rfl, rfl, fun _ => rfl, fun _ => rfl⟩

/-- Helper: stringifying the "_id" field leaves the lookup of every other
field unchanged. -/
theorem stringifyId_lookup_of_ne (d : Doc) (k : String) (hk : k ≠ "_id") :
    (stringifyId d).lookup k = d.lookup k := by
  induction d with
  | nil => rfl
  | cons kv tl ih =>
    obtain ⟨k0, v0⟩ := kv
    cases hb : (k0 == "_id") with
    | true =>
      have hk0 : k0 = "_id" := by simpa using hb
      subst hk0
      have hkb : (k == "_id") = false := by simpa using hk
      simp [stringifyId, List.lookup_cons, hb, hkb, ih]
    | false =>
      simp only [stringifyId, hb, Bool.false_eq_true, if_neg, not_false_iff,
        List.lookup_cons]
      cases hkk : (k == k0) with
      | true => rfl
      | false => exact ih

/-- Helper: if a document has an "_id" field, its value after serialization
is the string form of the original value. -/
theorem stringifyId_lookup_id (d : Doc) (v : DocValue)
    (h : d.lookup "_id" = some v) :
    (stringifyId d).lookup "_id" = some (DocValue.str v.asString) := by
  induction d with
  | nil => simp at h
  | cons kv tl ih =>
    obtain ⟨k0, v0⟩ := kv
    cases hb : (k0 == "_id") with
    | true =>
      have hk0 : k0 = "_id" := by simpa using hb
      subst hk0
      simp only [List.lookup_cons, BEq.refl] at h
      cases h
      simp [stringifyId, List.lookup_cons]
    | false =>
      have hbeq : ("_id" == k0) = false := by
        have hne : ¬ k0 = "_id" := by simpa using hb
        simp only [beq_eq_false_iff_ne, ne_eq]
        intro hh
        exact hne hh.symm
      simp only [List.lookup_cons, hbeq] at h
      simp only [stringifyId, hb, Bool.false_eq_true, if_neg, not_false_iff,
        List.lookup_cons, hbeq]
      exact ih h

/-- Claim C9: the response of get_user_subscriptions is {items: docs} where
docs is exactly what the accessor produced with each record's "_id" field (if
present) replaced by its string form; every other field of every record is
unchanged. -/
theorem get_subscriptions_serialization
    (store : String → List (String × String) → Nat → List Doc)
    (email user_id : Option String) (d : Doc) (k : String) (v : DocValue)
    (hk : k ≠ "_id") :
    (get_user_subscriptions store email user_id).items =
      (store "subscription" (get_user_subscriptions store email user_id).call.filter 50).map
        stringifyId ∧
    (stringifyId d).lookup k = d.lookup k ∧
    (d.lookup "_id" = some v →
      (stringifyId d).lookup "_id" = some (DocValue.str v.asString)) ∧
    (("_id", v) ∈ d → ("_id", DocValue.str v.asString) ∈ stringifyId d) := by
  refine ⟨rfl, stringifyId_lookup_of_ne d k hk, stringifyId_lookup_id d v, fun hmem => ?_⟩
  induction d with
  | nil => cases hmem
  | cons kv tl ih =>
    obtain ⟨k0, v0⟩ := kv
    rcases List.mem_cons.mp hmem with heq | htl
    · cases heq.symm
      simp [stringifyId]
    · simp only [stringifyId]
      exact List.mem_cons_of_mem _ (ih htl)

/-- Sample store output used to witness C9. -/
def sampleDoc : Doc := [("_id", DocValue.oid "65a1"), ("email", DocValue.str "x@y.com")]

/-- Sample store accessor used to witness C9: always returns `sampleDoc`. -/
def sampleStore : String → List (String × String) → Nat → List Doc :=
  fun _ _ _ => [sampleDoc]

/-- Witness for C9 on a concrete two-field document with an ObjectId. -/
theorem get_subscriptions_serialization_witness :
    (get_user_subscriptions sampleStore none none).items
      = (sampleStore "subscription"
          (get_user_subscriptions sampleStore none none).call.filter 50).map stringifyId ∧
    (stringifyId sampleDoc).lookup "email" = sampleDoc.lookup "email" ∧
    (stringifyId sampleDoc).lookup "_id" = some (DocValue.str "65a1") ∧
    ("_id", DocValue.str "65a1") ∈ stringifyId sampleDoc := by
  have h := get_subscriptions_serialization sampleStore none none sampleDoc "email"
    (DocValue.oid "65a1") (by decide)
  exact ⟨h.1, h.2.1, h.2.2.1 rfl, h.2.2.2 (by decide)⟩

/-- The store module's inspectable connection handle `db`, as the diagnostics
handler uses it: an optional `name` attribute and the outcome of
`list_collection_names()` (the names, or the raised exception's message). -/
structure DbHandle where
  name : Option String
  list_collection_names : Except String (List String)

/-- Outcome of `from database import db` inside the diagnostics handler:
an ImportError, another exception (with message), or success with `db`
either `None` or a handle. -/
inductive DbImport where
  | importError
  | otherError : String → DbImport
  | ok : Option DbHandle → DbImport

/-- The two environment variables the diagnostics handler presence-checks. -/
structure Env where
  database_url_set : Bool
  database_name_set : Bool
deriving DecidableEq, Repr

/-- The report dict returned by the `GET /test` handler. `database_url` and
`database_name` start as Python `None`, hence `Option String`. -/
structure TestResponse where
  backend : String
  database : String
  database_url : Option String
  database_name : Option String
  connection_status : String
  collections : List String
deriving DecidableEq, Repr

/-- The `GET /test` handler `test_database` of src/main.py, embedded as a
total function over the outcome of the import and the environment: every
exception path of the Python code is a branch here, folded into the report. -/
def test_database (imp : DbImport) (env : Env) : TestResponse :=
  let response : TestResponse :=
    { backend := "✅ Running"
      database := "❌ Not Available"
      database_url := none
      database_name := none
      connection_status := "Not Connected"
      collections := [] }
  let response :=
    match imp with
    | DbImport.importError =>
      { response with
        database := "❌ Database module not found (run enable-database first)" }
    | DbImport.otherError e =>
      { response with database := "❌ Error: " ++ e.take 50 }
    | DbImport.ok none =>
      { response with database := "⚠️  Available but not initialized" }
    | DbImport.ok (some db) =>
      let response :=
        { response with
          database := "✅ Available"
          database_url := some "✅ Configured"
          database_name := some (db.name.getD "✅ Connected")
          connection_status := "Connected" }
      match db.list_collection_names with
      | Except.ok collections =>
        { response with
          collections := collections.take 10
          database := "✅ Connected & Working" }
      | Except.error e =>
        { response with database := "⚠️  Connected but Error: " ++ e.take 50 }
  { response with
    database_url := some (if env.database_url_set then "✅ Set" else "❌ Not Set")
    database_name := some (if env.database_name_set then "✅ Set" else "❌ Not Set") }

/-- Claim C7: the diagnostics handler is a total function of the accessor's
outcome — it never raises — and each failure (import failure, uninitialized
connection, other import-time error, collection-enumeration error) is folded
into the report's database field as descriptive text. -/
theorem test_database_never_raises (imp : DbImport) (env : Env) :
    (test_database imp env).backend = "✅ Running" ∧
    (test_database imp env).database =
      (match imp with
       | DbImport.importError =>
         "❌ Database module not found (run enable-database first)"
       | DbImport.otherError e => "❌ Error: " ++ e.take 50
       | DbImport.ok none => "⚠️  Available but not initialized"
       | DbImport.ok (some db) =>
         match db.list_collection_names with
         | Except.ok _ => "✅ Connected & Working"
         | Except.error e => "⚠️  Connected but Error: " ++ e.take 50) ∧
    (test_database imp env).connection_status =
      (match imp with
       | DbImport.ok (some _) => "Connected"
       | _ => "Not Connected") := by
  cases imp with
  | importError => exact ⟨rfl, rfl, rfl⟩
  | otherError e => exact ⟨rfl, rfl, rfl⟩
  | ok o =>
    cases o with
    | none => exact ⟨rfl, rfl, rfl⟩
    | some db =>
      cases hc : db.list_collection_names with
      | ok cols => refine ⟨?_, ?_, ?_⟩ <;> simp [test_database, hc]
      | error e => refine ⟨?_, ?_, ?_⟩ <;> simp [test_database, hc]

/-- Claim C8: with an available connection, the report lists at most 10 of
the enumerated collection names; if the enumeration fails, the database field
degrades to a connected-with-error string carrying the error message
truncated to 50 characters, and a report is still returned. -/
theorem test_database_collections_capped (db : DbHandle) (env : Env) :
    (test_database (DbImport.ok (some db)) env).collections =
      (match db.list_collection_names with
       | Except.ok cols => cols.take 10
       | Except.error _ => []) ∧
    (test_database (DbImport.ok (some db)) env).collections.length ≤ 10 ∧
    (test_database (DbImport.ok (some db)) env).database =
      (match db.list_collection_names with
       | Except.ok _ => "✅ Connected & Working"
       | Except.error e => "⚠️  Connected but Error: " ++ e.take 50) := by
  cases hc : db.list_collection_names with
  | ok cols =>
    refine ⟨by simp [test_database, hc], ?_, by simp [test_database, hc]⟩
    have hx : (test_database (DbImport.ok (some db)) env).collections = cols.take 10 := by
      simp [test_database, hc]
    rw [hx]
    calc (cols.take 10).length = min 10 cols.length := List.length_take 10 cols
      _ ≤ 10 := Nat.min_le_left 10 cols.length
  | error e =>
    refine ⟨by simp [test_database, hc], ?_, by simp [test_database, hc]⟩
    have hx : (test_database (DbImport.ok (some db)) env).collections = [] := by
      simp [test_database, hc]
    rw [hx]
    exact Nat.zero_le 10

end PricingBackend
